import Mathlib

/-!
A shallow embedding of the gomodbus TCP slave core (function.go and
tcpserver.go): the per-function PDU handlers, the default dispatch table,
the frame dispatcher and the per-connection frame-reading loop.  The register
backend (node.go, outside the verified sources) is abstracted as an oracle
mapping each backend call to its result; handlers additionally return the
sequence of backend calls they performed, so that statements about call
order and about "no backend mutation" can be made.  Machine integers are
naturals, with an explicit `% 2 ^ w` wherever the Go code performs a
narrowing conversion.
-/

/-- Byte strings are lists of naturals (each < 256 for real wire data). -/
abbrev Bytes := List Nat

/-- binary.BigEndian.Uint16(data[i:]) — big-endian 16-bit read at offset i. -/
def u16 (data : Bytes) (i : Nat) : Nat := data.getD i 0 * 256 + data.getD (i+1) 0

/-- binary.BigEndian.PutUint16 — big-endian bytes of a uint16 value. -/
def putU16 (n : Nat) : Bytes := [n / 256 % 256, n % 256]

/-- function.go: FuncReadMinSize. -/
def FuncReadMinSize : Nat := 4

/-- function.go: FuncWriteMinSize. -/
def FuncWriteMinSize : Nat := 4

/-- function.go: FuncWriteMultiMinSize. -/
def FuncWriteMultiMinSize : Nat := 5

/-- function.go: FuncReadWriteMinSize. -/
def FuncReadWriteMinSize : Nat := 9

/-- function.go: FuncMaskWriteMinSize. -/
def FuncMaskWriteMinSize : Nat := 6

/-- Modelled from the spec: Read Coils / Read Discrete Inputs minimum quantity
(the constant is defined in a repository file outside the given sources;
the function table of the spec gives qty ∈ [1,2000]). -/
def ReadBitsQuantityMin : Nat := 1

/-- Modelled from the spec: Read Coils / Read Discrete Inputs maximum quantity. -/
def ReadBitsQuantityMax : Nat := 2000

/-- Modelled from the spec: Write Multiple Coils minimum quantity (qty ∈ [1,1968]). -/
def WriteBitsQuantityMin : Nat := 1

/-- Modelled from the spec: Write Multiple Coils maximum quantity. -/
def WriteBitsQuantityMax : Nat := 1968

/-- Modelled from the spec: Read Input/Holding Registers minimum quantity (qty ∈ [1,125]). -/
def ReadRegQuantityMin : Nat := 1

/-- Modelled from the spec: Read Input/Holding Registers maximum quantity. -/
def ReadRegQuantityMax : Nat := 125

/-- Modelled from the spec: Write Multiple Registers minimum count (count ∈ [1,123]). -/
def WriteRegQuantityMin : Nat := 1

/-- Modelled from the spec: Write Multiple Registers maximum count. -/
def WriteRegQuantityMax : Nat := 123

/-- Modelled from the spec: Read/Write Multiple Registers minimum read count (readCount ∈ [1,125]). -/
def ReadWriteOnReadRegQuantityMin : Nat := 1

/-- Modelled from the spec: Read/Write Multiple Registers maximum read count. -/
def ReadWriteOnReadRegQuantityMax : Nat := 125

/-- Modelled from the spec: Read/Write Multiple Registers minimum write count (writeCount ∈ [1,121]). -/
def ReadWriteOnWriteRegQuantityMin : Nat := 1

/-- Modelled from the spec: Read/Write Multiple Registers maximum write count. -/
def ReadWriteOnWriteRegQuantityMax : Nat := 121

/-- Modelled from the spec: Exception Code 1, IllegalFunction. -/
def ExceptionCodeIllegalFunction : Nat := 1

/-- Modelled from the spec: Exception Code 3, IllegalDataValue. -/
def ExceptionCodeIllegalDataValue : Nat := 3

/-- Modelled from the spec: the fixed Modbus protocol identifier, 0. -/
def tcpProtocolIdentifier : Nat := 0

/-- Modelled from the spec: MBAP header size, 7 bytes (AWAIT_HEADER needs 7 bytes). -/
def tcpHeaderMbapSize : Nat := 7

/-- Modelled from the spec: maximum ADU size of the pooled buffers, 260 bytes. -/
def tcpAduMaxSize : Nat := 260

/-- One backend (NodeRegister) call, as performed by the handlers. -/
inductive RegEvent where
  | readCoils (addr qty : Nat)
  | readDiscretes (addr qty : Nat)
  | writeCoils (addr qty : Nat) (val : Bytes)
  | readHoldings (addr qty : Nat)
  | readInputs (addr qty : Nat)
  | writeHoldings (addr qty : Nat) (val : Bytes)
  | maskWrite (addr andMask orMask : Nat)
deriving DecidableEq, Repr

/-- The register backend, abstracted as an oracle: the result of each backend
call.  `.error e` is a backend error carrying exception code e; `.ok v` is
success, v being the returned bytes (ignored for write calls). -/
abbrev NodeRegister := RegEvent → Except Nat Bytes

/-- The Go pair `([]byte, error)` returned by a handler, together with the
trace of backend calls the handler performed.  `rsp = none` models a nil
byte slice, `err = none` a nil error. -/
structure HandlerResult where
  trace : List RegEvent
  rsp : Option Bytes
  err : Option Nat
deriving DecidableEq, Repr

/-- function.go: FunctionHandler — the handler signature. -/
abbrev FunctionHandler := NodeRegister → Bytes → HandlerResult

/-- function.go: readBits — shared body of Read Coils / Read Discrete Inputs. -/
def readBits (reg : NodeRegister) (data : Bytes) (isCoil : Bool) : HandlerResult :=
  if data.length ≠ FuncReadMinSize then ⟨[], none, some ExceptionCodeIllegalDataValue⟩
  else
    let address := u16 data 0
    let quality := u16 data 2
    if quality < ReadBitsQuantityMin ∨ ReadBitsQuantityMax < quality then
      ⟨[], none, some ExceptionCodeIllegalDataValue⟩
    else
      let ev := if isCoil then RegEvent.readCoils address quality
                else RegEvent.readDiscretes address quality
      match reg ev with
      | .error e => ⟨[ev], none, some e⟩
      | .ok value => ⟨[ev], some (value.length % 256 :: value), none⟩

/-- function.go: funcReadDiscreteInputs. -/
def funcReadDiscreteInputs (reg : NodeRegister) (data : Bytes) : HandlerResult :=
  readBits reg data false

/-- function.go: funcReadCoils. -/
def funcReadCoils (reg : NodeRegister) (data : Bytes) : HandlerResult :=
  readBits reg data true

/-- function.go: funcWriteSingleCoil.  On the write path the Go code is
`return data, err`: the echoed request bytes are returned together with
whatever error the backend reported. -/
def funcWriteSingleCoil (reg : NodeRegister) (data : Bytes) : HandlerResult :=
  if data.length ≠ FuncWriteMinSize then ⟨[], none, some ExceptionCodeIllegalDataValue⟩
  else
    let address := u16 data 0
    let newValue := u16 data 2
    if ¬(newValue = 0xFF00 ∨ newValue = 0x0000) then
      ⟨[], none, some ExceptionCodeIllegalDataValue⟩
    else
      let b : Nat := if newValue = 0xFF00 then 1 else 0
      let ev := RegEvent.writeCoils address 1 [b]
      match reg ev with
      | .error e => ⟨[ev], some data, some e⟩
      | .ok _ => ⟨[ev], some data, none⟩

/-- function.go: funcWriteMultiCoils.  byteCnt is compared against
byte((quality+7)/8), computed in uint16 then narrowed to a byte. -/
def funcWriteMultiCoils (reg : NodeRegister) (data : Bytes) : HandlerResult :=
  if data.length < FuncWriteMultiMinSize then ⟨[], none, some ExceptionCodeIllegalDataValue⟩
  else
    let address := u16 data 0
    let quality := u16 data 2
    let byteCnt := data.getD 4 0
    if quality < WriteBitsQuantityMin ∨ WriteBitsQuantityMax < quality ∨
        byteCnt ≠ (quality + 7) % 65536 / 8 % 256 then
      ⟨[], none, some ExceptionCodeIllegalDataValue⟩
    else
      let ev := RegEvent.writeCoils address quality (data.drop 5)
      match reg ev with
      | .error e => ⟨[ev], some (data.take 4), some e⟩
      | .ok _ => ⟨[ev], some (data.take 4), none⟩

/-- function.go: readRegisters — shared body of Read Input / Read Holding
Registers.  The byte-count byte is byte(quality*2), a uint16 product narrowed
to a byte. -/
def readRegisters (reg : NodeRegister) (data : Bytes) (isHolding : Bool) : HandlerResult :=
  if data.length ≠ FuncReadMinSize then ⟨[], none, some ExceptionCodeIllegalDataValue⟩
  else
    let address := u16 data 0
    let quality := u16 data 2
    if ReadRegQuantityMax < quality ∨ quality < ReadRegQuantityMin then
      ⟨[], none, some ExceptionCodeIllegalDataValue⟩
    else
      let ev := if isHolding then RegEvent.readHoldings address quality
                else RegEvent.readInputs address quality
      match reg ev with
      | .error e => ⟨[ev], none, some e⟩
      | .ok value => ⟨[ev], some (quality * 2 % 65536 % 256 :: value), none⟩

/-- function.go: funcReadInputRegisters. -/
def funcReadInputRegisters (reg : NodeRegister) (data : Bytes) : HandlerResult :=
  readRegisters reg data false

/-- function.go: funcReadHoldingRegisters. -/
def funcReadHoldingRegisters (reg : NodeRegister) (data : Bytes) : HandlerResult :=
  readRegisters reg data true

/-- function.go: funcWriteSingleRegister.  The Go code is `return data, err`. -/
def funcWriteSingleRegister (reg : NodeRegister) (data : Bytes) : HandlerResult :=
  if data.length ≠ FuncWriteMinSize then ⟨[], none, some ExceptionCodeIllegalDataValue⟩
  else
    let address := u16 data 0
    let ev := RegEvent.writeHoldings address 1 (data.drop 2)
    match reg ev with
    | .error e => ⟨[ev], some data, some e⟩
    | .ok _ => ⟨[ev], some data, none⟩

/-- function.go: funcWriteMultiHoldingRegisters.  On success the code rewrites
data[2:4] with PutUint16(count) and returns data[:4]; on a backend write error
it returns (nil, err). -/
def funcWriteMultiHoldingRegisters (reg : NodeRegister) (data : Bytes) : HandlerResult :=
  if data.length < FuncWriteMultiMinSize then ⟨[], none, some ExceptionCodeIllegalDataValue⟩
  else
    let address := u16 data 0
    let count := u16 data 2
    let byteCnt := data.getD 4 0
    if count < WriteRegQuantityMin ∨ WriteRegQuantityMax < count ∨
        byteCnt ≠ count * 2 % 65536 % 256 then
      ⟨[], none, some ExceptionCodeIllegalDataValue⟩
    else
      let ev := RegEvent.writeHoldings address count (data.drop 5)
      match reg ev with
      | .error e => ⟨[ev], none, some e⟩
      | .ok _ => ⟨[ev], some (data.take 2 ++ putU16 count), none⟩

/-- function.go: funcReadWriteMultiHoldingRegisters.  The write is attempted
first; on a write error the function returns before reading. -/
def funcReadWriteMultiHoldingRegisters (reg : NodeRegister) (data : Bytes) : HandlerResult :=
  if data.length < FuncReadWriteMinSize then ⟨[], none, some ExceptionCodeIllegalDataValue⟩
  else
    let readAddress := u16 data 0
    let readCount := u16 data 2
    let writeAddress := u16 data 4
    let writeCount := u16 data 6
    let writeByteCnt := data.getD 8 0
    if readCount < ReadWriteOnReadRegQuantityMin ∨ ReadWriteOnReadRegQuantityMax < readCount ∨
        writeCount < ReadWriteOnWriteRegQuantityMin ∨ ReadWriteOnWriteRegQuantityMax < writeCount ∨
        writeByteCnt ≠ writeCount * 2 % 65536 % 256 then
      ⟨[], none, some ExceptionCodeIllegalDataValue⟩
    else
      let wEv := RegEvent.writeHoldings writeAddress writeCount (data.drop 9)
      match reg wEv with
      | .error e => ⟨[wEv], none, some e⟩
      | .ok _ =>
        let rEv := RegEvent.readHoldings readAddress readCount
        match reg rEv with
        | .error e => ⟨[wEv, rEv], none, some e⟩
        | .ok value => ⟨[wEv, rEv], some (readCount * 2 % 65536 % 256 :: value), none⟩

/-- function.go: funcMaskWriteRegisters.  The Go code is `return data, err`. -/
def funcMaskWriteRegisters (reg : NodeRegister) (data : Bytes) : HandlerResult :=
  if data.length ≠ FuncMaskWriteMinSize then ⟨[], none, some ExceptionCodeIllegalDataValue⟩
  else
    let referAddress := u16 data 0
    let andMask := u16 data 2
    let orMask := u16 data 4
    let ev := RegEvent.maskWrite referAddress andMask orMask
    match reg ev with
    | .error e => ⟨[ev], some data, some e⟩
    | .ok _ => ⟨[ev], some data, none⟩

/-- Modelled from the spec: the one-byte codes of the ten default functions
(their defining file is outside the given sources; the values are the
standard Modbus function codes named in the function table of the spec). -/
def FuncCodeReadCoils : Nat := 1

/-- Modelled from the spec: function code of Read Discrete Inputs. -/
def FuncCodeReadDiscreteInputs : Nat := 2

/-- Modelled from the spec: function code of Read Holding Registers. -/
def FuncCodeReadHoldingRegisters : Nat := 3

/-- Modelled from the spec: function code of Read Input Registers. -/
def FuncCodeReadInputRegisters : Nat := 4

/-- Modelled from the spec: function code of Write Single Coil. -/
def FuncCodeWriteSingleCoil : Nat := 5

/-- Modelled from the spec: function code of Write Single Register. -/
def FuncCodeWriteSingleRegister : Nat := 6

/-- Modelled from the spec: function code of Write Multiple Coils. -/
def FuncCodeWriteMultipleCoils : Nat := 15

/-- Modelled from the spec: function code of Write Multiple Registers. -/
def FuncCodeWriteMultipleRegisters : Nat := 16

/-- Modelled from the spec: function code of Mask Write Register. -/
def FuncCodeMaskWriteRegister : Nat := 22

/-- Modelled from the spec: function code of Read/Write Multiple Registers. -/
def FuncCodeReadWriteMultipleRegisters : Nat := 23

/-- function.go: newServerHandler — the default function-code dispatch table. -/
def defaultTable : Nat → Option FunctionHandler := fun funcCode =>
  if funcCode = FuncCodeReadDiscreteInputs then some funcReadDiscreteInputs
  else if funcCode = FuncCodeReadCoils then some funcReadCoils
  else if funcCode = FuncCodeWriteSingleCoil then some funcWriteSingleCoil
  else if funcCode = FuncCodeWriteMultipleCoils then some funcWriteMultiCoils
  else if funcCode = FuncCodeReadInputRegisters then some funcReadInputRegisters
  else if funcCode = FuncCodeReadHoldingRegisters then some funcReadHoldingRegisters
  else if funcCode = FuncCodeWriteSingleRegister then some funcWriteSingleRegister
  else if funcCode = FuncCodeWriteMultipleRegisters then some funcWriteMultiHoldingRegisters
  else if funcCode = FuncCodeReadWriteMultipleRegisters then some funcReadWriteMultiHoldingRegisters
  else if funcCode = FuncCodeMaskWriteRegister then some funcMaskWriteRegisters
  else none

/-- tcpserver.go, frameHandler lines 242-248: the response ADU — echoed
header fields, length = uint16(2+len(rspPduData)), slave id, function code,
then the response PDU data. -/
def buildResponse (t p slave fc : Nat) (pdu : Bytes) : Bytes :=
  putU16 t ++ putU16 p ++ putU16 ((2 + pdu.length) % 65536) ++ [slave, fc] ++ pdu

/-- tcpserver.go: frameHandler.  Returns the emitted response ADU (none when
nothing is written: unknown slave id, or the recovered index panic on a
7-byte ADU) together with the trace of backend calls performed. -/
def frameHandler (nodes : Nat → Option NodeRegister) (table : Nat → Option FunctionHandler)
    (requestAdu : Bytes) : Option Bytes × List RegEvent :=
  if requestAdu.length < 8 then (none, [])
  else
    match nodes (requestAdu.getD 6 0) with
    | none => (none, [])
    | some node =>
      let funcCode := requestAdu.getD 7 0
      let r : HandlerResult :=
        match table funcCode with
        | some handle => handle node (requestAdu.drop 8)
        | none => ⟨[], none, some ExceptionCodeIllegalFunction⟩
      match r.err with
      | some e =>
        (some (buildResponse (u16 requestAdu 0) (u16 requestAdu 2) (requestAdu.getD 6 0)
          (funcCode ||| 0x80) [e]), r.trace)
      | none =>
        (some (buildResponse (u16 requestAdu 0) (u16 requestAdu 2) (requestAdu.getD 6 0)
          funcCode (r.rsp.getD [])), r.trace)

/-- tcpserver.go: the frame-reading loop of handlerModbus, on an incoming
byte stream, with transport reads assumed to succeed (io.ReadFull delivers
the requested bytes) and response writes assumed to succeed.  Returns the
list of emitted response ADUs; `.error ()` models the Go slice-bounds panic
raised by `adu[rdCnt:length]` when length exceeds the pooled buffer size.
Fuel bounds the number of frames processed; an exhausted stream ends the
connection quietly (the model ignores read-deadline handling). -/
def serveStream (nodes : Nat → Option NodeRegister) (table : Nat → Option FunctionHandler) :
    Nat → List Nat → Except Unit (List Bytes)
  | 0, _ => .ok []
  | fuel+1, stream =>
    if stream.length < tcpHeaderMbapSize then .ok []
    else if u16 stream 2 ≠ tcpProtocolIdentifier then
      serveStream nodes table fuel (stream.drop tcpHeaderMbapSize)
    else
      let length := u16 stream 4 + tcpHeaderMbapSize - 1
      if length < tcpHeaderMbapSize then serveStream nodes table fuel (stream.drop tcpHeaderMbapSize)
      else if tcpAduMaxSize < length then .error ()
      else if stream.length < length then .ok []
      else
        match frameHandler nodes table (stream.take length) with
        | (some rsp, _) => (serveStream nodes table fuel (stream.drop length)).map (rsp :: ·)
        | (none, _) => serveStream nodes table fuel (stream.drop length)

/-! Concrete backends used by witnesses and counterexamples. -/

/-- A backend on which every call fails with exception code 4. -/
def failingReg : NodeRegister := fun _ => .error 4

/-- A backend on which holding-register writes fail with exception code 4
and every other call succeeds returning the bytes [7, 7]. -/
def failWriteReg : NodeRegister := fun ev =>
  match ev with
  | RegEvent.writeHoldings _ _ _ => .error 4
  | _ => .ok [7, 7]

/-! Per-handler shape lemmas: no default handler returns a nil response
slice together with a nil error. -/

lemma readBits_not_both_nil (reg : NodeRegister) (data : Bytes) (b : Bool) :
    ¬((readBits reg data b).rsp = none ∧ (readBits reg data b).err = none) := by
  simp only [readBits]
  split_ifs
  · simp
  · simp
  · split <;> simp
  · split <;> simp

lemma funcWriteSingleCoil_not_both_nil (reg : NodeRegister) (data : Bytes) :
    ¬((funcWriteSingleCoil reg data).rsp = none ∧ (funcWriteSingleCoil reg data).err = none) := by
  simp only [funcWriteSingleCoil]
  split_ifs <;> try simp
  all_goals split <;> simp

lemma funcWriteMultiCoils_not_both_nil (reg : NodeRegister) (data : Bytes) :
    ¬((funcWriteMultiCoils reg data).rsp = none ∧ (funcWriteMultiCoils reg data).err = none) := by
  simp only [funcWriteMultiCoils]
  split_ifs <;> try simp
  all_goals split <;> simp

lemma readRegisters_not_both_nil (reg : NodeRegister) (data : Bytes) (b : Bool) :
    ¬((readRegisters reg data b).rsp = none ∧ (readRegisters reg data b).err = none) := by
  simp only [readRegisters]
  split_ifs <;> try simp
  all_goals split <;> simp

lemma funcWriteSingleRegister_not_both_nil (reg : NodeRegister) (data : Bytes) :
    ¬((funcWriteSingleRegister reg data).rsp = none ∧
      (funcWriteSingleRegister reg data).err = none) := by
  simp only [funcWriteSingleRegister]
  split_ifs <;> try simp
  all_goals split <;> simp

lemma funcWriteMultiHoldingRegisters_not_both_nil (reg : NodeRegister) (data : Bytes) :
    ¬((funcWriteMultiHoldingRegisters reg data).rsp = none ∧
      (funcWriteMultiHoldingRegisters reg data).err = none) := by
  simp only [funcWriteMultiHoldingRegisters]
  split_ifs <;> try simp
  all_goals split <;> simp

lemma funcReadWriteMulti_not_both_nil (reg : NodeRegister) (data : Bytes) :
    ¬((funcReadWriteMultiHoldingRegisters reg data).rsp = none ∧
      (funcReadWriteMultiHoldingRegisters reg data).err = none) := by
  simp only [funcReadWriteMultiHoldingRegisters]
  split_ifs <;> try simp
  all_goals split
  · simp
  · split <;> simp

lemma funcMaskWriteRegisters_not_both_nil (reg : NodeRegister) (data : Bytes) :
    ¬((funcMaskWriteRegisters reg data).rsp = none ∧
      (funcMaskWriteRegisters reg data).err = none) := by
  simp only [funcMaskWriteRegisters]
  split_ifs <;> try simp
  all_goals split <;> simp

set_option maxHeartbeats 2000000 in
/-- C1 (amended): every registered default handler returns at least one of a
response PDU or an error — never both nil.  (The stronger half of the claim,
never both non-nil, fails: see the counterexample.) -/
theorem C1_handler_one_outcome (fc : Nat) (h : FunctionHandler)
    (hfc : defaultTable fc = some h) (reg : NodeRegister) (data : Bytes) :
    ¬((h reg data).rsp = none ∧ (h reg data).err = none) := by
  unfold defaultTable at hfc
  split_ifs at hfc
  all_goals injection hfc with hfc
  all_goals subst hfc
  · exact readBits_not_both_nil reg data false
  · exact readBits_not_both_nil reg data true
  · exact funcWriteSingleCoil_not_both_nil reg data
  · exact funcWriteMultiCoils_not_both_nil reg data
  · exact readRegisters_not_both_nil reg data false
  · exact readRegisters_not_both_nil reg data true
  · exact funcWriteSingleRegister_not_both_nil reg data
  · exact funcWriteMultiHoldingRegisters_not_both_nil reg data
  · exact funcReadWriteMulti_not_both_nil reg data
  · exact funcMaskWriteRegisters_not_both_nil reg data

/-- C1 witness: the never-both-nil property at a concrete handler and input. -/
theorem C1_handler_one_outcome_witness :
    ¬((funcWriteSingleCoil failingReg [0, 0, 255, 0]).rsp = none ∧
      (funcWriteSingleCoil failingReg [0, 0, 255, 0]).err = none) :=
  C1_handler_one_outcome FuncCodeWriteSingleCoil funcWriteSingleCoil rfl
    failingReg [0, 0, 255, 0]

/-- C1 counterexample: when the backend write reports an error, the default
Write Single Coil handler returns BOTH a non-nil response slice (the echoed
request bytes) and a non-nil error, refuting "never both non-nil at once". -/
theorem C1_counterexample :
    (funcWriteSingleCoil failingReg [0, 0, 255, 0]).rsp = some [0, 0, 255, 0] ∧
    (funcWriteSingleCoil failingReg [0, 0, 255, 0]).err = some 4 := by
  decide

/-- C2: a frame whose MBAP declared-length field is 300 drives the body-read
slice bound to 300 + 6 = 306, past the 260-byte pooled buffer: the modelled
frame-read loop faults (in Go, `adu[rdCnt:length]` panics with a
slice-bounds violation), refuting the claim for declared lengths above 254. -/
theorem C2_declared_length_overflows_buffer :
    serveStream (fun _ => none) (fun _ => none) 1 [0, 0, 0, 0, 1, 44, 1] = .error () := rfl

/-- C3 counterexample: on a Read/Write Multiple Registers request that passes
validation (readCount = 1, writeCount = 1, writeByteCount = 2), a backend
whose write fails yields a trace containing only the write call — the read
is never performed, refuting the claim that each is independent of the success of the other. -/
theorem C3_counterexample :
    (funcReadWriteMultiHoldingRegisters failWriteReg
        [0, 0, 0, 1, 0, 0, 0, 1, 2, 1, 2]).trace =
      [RegEvent.writeHoldings 0 1 [1, 2]] := by
  decide

/-- C3 (amended): for every validated Read/Write Multiple Registers request,
the write is applied first; the read is performed only when the write
succeeds; on the success path the response is the byte 2·readCount followed
by the read words. -/
theorem C3_write_then_read (reg : NodeRegister) (data : Bytes)
    (h9 : FuncReadWriteMinSize ≤ data.length)
    (hr1 : 1 ≤ u16 data 2) (hr2 : u16 data 2 ≤ 125)
    (hw1 : 1 ≤ u16 data 6) (hw2 : u16 data 6 ≤ 121)
    (hbc : data.getD 8 0 = 2 * u16 data 6) :
    funcReadWriteMultiHoldingRegisters reg data =
      match reg (RegEvent.writeHoldings (u16 data 4) (u16 data 6) (data.drop 9)) with
      | .error e =>
        ⟨[RegEvent.writeHoldings (u16 data 4) (u16 data 6) (data.drop 9)], none, some e⟩
      | .ok _ =>
        match reg (RegEvent.readHoldings (u16 data 0) (u16 data 2)) with
        | .error e =>
          ⟨[RegEvent.writeHoldings (u16 data 4) (u16 data 6) (data.drop 9),
            RegEvent.readHoldings (u16 data 0) (u16 data 2)], none, some e⟩
        | .ok value =>
          ⟨[RegEvent.writeHoldings (u16 data 4) (u16 data 6) (data.drop 9),
            RegEvent.readHoldings (u16 data 0) (u16 data 2)],
           some (2 * u16 data 2 :: value), none⟩ := by
  simp only [funcReadWriteMultiHoldingRegisters, FuncReadWriteMinSize,
    ReadWriteOnReadRegQuantityMin, ReadWriteOnReadRegQuantityMax,
    ReadWriteOnWriteRegQuantityMin, ReadWriteOnWriteRegQuantityMax] at h9 ⊢
  rw [if_neg (by omega), if_neg (by omega)]
  have h2 : u16 data 2 * 2 % 65536 % 256 = 2 * u16 data 2 := by omega
  cases hw : reg (RegEvent.writeHoldings (u16 data 4) (u16 data 6) (data.drop 9)) with
  | error e => rfl
  | ok w =>
    cases hr : reg (RegEvent.readHoldings (u16 data 0) (u16 data 2)) with
    | error e => rfl
    | ok value => rw [h2]

/-- C3 witness: the amended behaviour at a concrete failing-write backend. -/
theorem C3_write_then_read_witness :
    funcReadWriteMultiHoldingRegisters failWriteReg [0, 0, 0, 1, 0, 0, 0, 1, 2, 1, 2] =
      ⟨[RegEvent.writeHoldings 0 1 [1, 2]], none, some 4⟩ :=
  C3_write_then_read failWriteReg [0, 0, 0, 1, 0, 0, 0, 1, 2, 1, 2]
    (by decide) (by decide) (by decide) (by decide) (by decide) (by decide)

/-- C7: a Write Multiple Coils or Write Multiple Registers request whose
quantity is out of bounds, whose data is shorter than the 5-byte minimum, or
whose byte count disagrees with the quantity, yields Exception Code 3 with
an empty backend trace — no write call is made, so register state is
unchanged. -/
theorem C7_validation_no_mutation (reg : NodeRegister) (data : Bytes) :
    ((u16 data 2 < 1 ∨ 1968 < u16 data 2 ∨ data.length < 5 ∨
        data.getD 4 0 ≠ (u16 data 2 + 7) / 8) →
      funcWriteMultiCoils reg data = ⟨[], none, some ExceptionCodeIllegalDataValue⟩) ∧
    ((u16 data 2 < 1 ∨ 123 < u16 data 2 ∨ data.length < 5 ∨
        data.getD 4 0 ≠ 2 * u16 data 2) →
      funcWriteMultiHoldingRegisters reg data = ⟨[], none, some ExceptionCodeIllegalDataValue⟩) := by
  constructor
  · intro h
    simp only [funcWriteMultiCoils, FuncWriteMultiMinSize, WriteBitsQuantityMin,
      WriteBitsQuantityMax]
    split_ifs with h1 h2
    · rfl
    · rfl
    · exfalso; omega
  · intro h
    simp only [funcWriteMultiHoldingRegisters, FuncWriteMultiMinSize, WriteRegQuantityMin,
      WriteRegQuantityMax]
    split_ifs with h1 h2
    · rfl
    · rfl
    · exfalso; omega

/-- C7 witness: both validation rejections at a concrete zero-quantity input. -/
theorem C7_validation_no_mutation_witness :
    funcWriteMultiCoils failingReg [0, 0, 0, 0, 9] =
      ⟨[], none, some ExceptionCodeIllegalDataValue⟩ ∧
    funcWriteMultiHoldingRegisters failingReg [0, 0, 0, 0, 9] =
      ⟨[], none, some ExceptionCodeIllegalDataValue⟩ :=
  ⟨(C7_validation_no_mutation failingReg [0, 0, 0, 0, 9]).1 (by decide),
   (C7_validation_no_mutation failingReg [0, 0, 0, 0, 9]).2 (by decide)⟩

/-- C8: a register read with data length 4 and quantity in [1,125] returns,
on backend success, the byte 2·qty followed by the word bytes the backend
returned;
with any other length or quantity it returns Exception Code 3 without
calling the backend. -/
theorem C8_read_registers (reg : NodeRegister) (data : Bytes) (hold : Bool) :
    ((data.length ≠ 4 ∨ u16 data 2 < 1 ∨ 125 < u16 data 2) →
      readRegisters reg data hold = ⟨[], none, some ExceptionCodeIllegalDataValue⟩) ∧
    (∀ v, data.length = 4 → 1 ≤ u16 data 2 → u16 data 2 ≤ 125 →
      reg (if hold then RegEvent.readHoldings (u16 data 0) (u16 data 2)
           else RegEvent.readInputs (u16 data 0) (u16 data 2)) = .ok v →
      readRegisters reg data hold =
        ⟨[if hold then RegEvent.readHoldings (u16 data 0) (u16 data 2)
           else RegEvent.readInputs (u16 data 0) (u16 data 2)],
         some (2 * u16 data 2 :: v), none⟩) := by
  constructor
  · intro h
    simp only [readRegisters, FuncReadMinSize, ReadRegQuantityMin, ReadRegQuantityMax]
    split_ifs <;> first | rfl | (exfalso; omega)
  · intro v h4 hq1 hq2 hok
    simp only [readRegisters, FuncReadMinSize, ReadRegQuantityMin, ReadRegQuantityMax]
    rw [if_neg (by omega), if_neg (by omega), hok]
    have h2 : u16 data 2 * 2 % 65536 % 256 = 2 * u16 data 2 := by omega
    rw [h2]

/-- C8 witness: a concrete one-word holding-register read. -/
theorem C8_read_registers_witness :
    readRegisters failWriteReg [0, 0, 0, 1] true =
      ⟨[RegEvent.readHoldings 0 1], some [2, 7, 7], none⟩ :=
  (C8_read_registers failWriteReg [0, 0, 0, 1] true).2 [7, 7]
    rfl (by decide) (by decide) rfl

/-! Helper lemmas about 16-bit parsing of appended streams and of built
response ADUs. -/

lemma u16_append (l l' : List Nat) (i : Nat) (h : i + 1 < l.length) :
    u16 (l ++ l') i = u16 l i := by
  unfold u16
  rw [List.getD_append l l' 0 i (by omega), List.getD_append l l' 0 (i+1) h]

lemma buildResponse_cons (t p s f : Nat) (pdu : Bytes) :
    buildResponse t p s f pdu =
      t / 256 % 256 :: t % 256 :: p / 256 % 256 :: p % 256 ::
      (2 + pdu.length) % 65536 / 256 % 256 :: (2 + pdu.length) % 65536 % 256 ::
      s :: f :: pdu := by
  simp [buildResponse, putU16]

lemma u16_buildResponse_zero (t p s f : Nat) (pdu : Bytes) :
    u16 (buildResponse t p s f pdu) 0 = t % 65536 := by
  rw [buildResponse_cons]
  simp [u16]
  omega

lemma u16_buildResponse_two (t p s f : Nat) (pdu : Bytes) :
    u16 (buildResponse t p s f pdu) 2 = p % 65536 := by
  rw [buildResponse_cons]
  simp [u16]
  omega

lemma u16_buildResponse_four (t p s f : Nat) (pdu : Bytes) :
    u16 (buildResponse t p s f pdu) 4 = (2 + pdu.length) % 65536 := by
  rw [buildResponse_cons]
  simp [u16]
  omega

lemma getD_buildResponse_six (t p s f : Nat) (pdu : Bytes) :
    (buildResponse t p s f pdu).getD 6 0 = s := by
  rw [buildResponse_cons]; rfl

lemma drop_buildResponse (t p s f : Nat) (pdu : Bytes) :
    (buildResponse t p s f pdu).drop 8 = pdu := by
  rw [buildResponse_cons]; rfl

/-- C9: a dispatched request whose function code has no registered handler is
answered with the echoed function code with bit 0x80 set followed by exactly
one byte, Exception Code 1 (IllegalFunction). -/
theorem C9_unknown_function_reply (nodes : Nat → Option NodeRegister)
    (table : Nat → Option FunctionHandler) (adu : Bytes) (node : NodeRegister)
    (h8 : 8 ≤ adu.length)
    (hn : nodes (adu.getD 6 0) = some node)
    (ht : table (adu.getD 7 0) = none) :
    (frameHandler nodes table adu).1 =
      some (buildResponse (u16 adu 0) (u16 adu 2) (adu.getD 6 0)
        (adu.getD 7 0 ||| 0x80) [ExceptionCodeIllegalFunction]) := by
  simp only [frameHandler]
  rw [if_neg (by omega), hn, ht]

/-- C9 witness: function code 0 has no default handler; the reply to a
concrete frame is 0x80 followed by exception code 1. -/
theorem C9_unknown_function_reply_witness :
    (frameHandler (fun i => if i = 1 then some failingReg else none) defaultTable
      [0, 0, 0, 0, 0, 2, 1, 0]).1 = some [0, 0, 0, 0, 0, 3, 1, 128, 1] :=
  C9_unknown_function_reply (fun i => if i = 1 then some failingReg else none)
    defaultTable [0, 0, 0, 0, 0, 2, 1, 0] failingReg (by decide) rfl rfl

/-- C10: when a handler returns a non-nil error, the emitted reply is built
solely from the error — function code with bit 0x80 set and the single
exception-code byte — whatever response bytes the handler also returned. -/
theorem C10_error_discards_response (nodes : Nat → Option NodeRegister)
    (table : Nat → Option FunctionHandler) (adu : Bytes) (node : NodeRegister)
    (handle : FunctionHandler) (e : Nat)
    (h8 : 8 ≤ adu.length)
    (hn : nodes (adu.getD 6 0) = some node)
    (ht : table (adu.getD 7 0) = some handle)
    (he : (handle node (adu.drop 8)).err = some e) :
    (frameHandler nodes table adu).1 =
      some (buildResponse (u16 adu 0) (u16 adu 2) (adu.getD 6 0)
        (adu.getD 7 0 ||| 0x80) [e]) := by
  simp only [frameHandler]
  rw [if_neg (by omega), hn, ht]
  dsimp only
  rw [he]

/-- C10 witness: Write Single Coil on a failing backend returns both echo
bytes and an error; the emitted reply carries only the exception byte. -/
theorem C10_error_discards_response_witness :
    (frameHandler (fun i => if i = 1 then some failingReg else none) defaultTable
      [0, 0, 0, 0, 0, 6, 1, 5, 0, 0, 255, 0]).1 = some [0, 0, 0, 0, 0, 3, 1, 133, 4] :=
  C10_error_discards_response (fun i => if i = 1 then some failingReg else none)
    defaultTable [0, 0, 0, 0, 0, 6, 1, 5, 0, 0, 255, 0] failingReg
    funcWriteSingleCoil 4 (by decide) rfl rfl rfl

/-- C6: a 7-byte header whose protocol identifier is not 0 is discarded whole
and framing restarts on the remaining stream, with the connection still
serving whatever complete frames follow. -/
theorem C6_protocol_resync (nodes : Nat → Option NodeRegister)
    (table : Nat → Option FunctionHandler) (hdr rest : List Nat) (fuel : Nat)
    (h7 : hdr.length = 7)
    (hp : u16 hdr 2 ≠ tcpProtocolIdentifier) :
    serveStream nodes table (fuel+1) (hdr ++ rest) = serveStream nodes table fuel rest := by
  have hu : u16 (hdr ++ rest) 2 = u16 hdr 2 := u16_append hdr rest 2 (by omega)
  simp only [serveStream]
  rw [if_neg (by simp only [List.length_append, tcpHeaderMbapSize]; omega),
    if_pos (by rw [hu]; exact hp)]
  rw [show tcpHeaderMbapSize = hdr.length from by rw [h7]; rfl, List.drop_left]

/-- C6 witness: after a protocol-id 0x0100 header is dropped, a well-formed
Read Holding Registers frame on the same connection is still served. -/
theorem C6_protocol_resync_witness :
    serveStream (fun i => if i = 1 then some failWriteReg else none) defaultTable 2
      ([0, 0, 1, 0, 0, 0, 0] ++ [0, 0, 0, 0, 0, 6, 1, 3, 0, 0, 0, 1]) =
      .ok [[0, 0, 0, 0, 0, 5, 1, 3, 2, 7, 7]] :=
  Eq.trans
    (C6_protocol_resync (fun i => if i = 1 then some failWriteReg else none) defaultTable
      [0, 0, 1, 0, 0, 0, 0] [0, 0, 0, 0, 0, 6, 1, 3, 0, 0, 0, 1] 1 rfl (by decide))
    rfl

/-- C5: a complete frame addressed to an unregistered slave id produces no
response bytes and no backend call, and the reader continues with the rest
of the stream exactly as if the frame had not been there. -/
theorem C5_unknown_slave_dropped (nodes : Nat → Option NodeRegister)
    (table : Nat → Option FunctionHandler) (F rest : List Nat) (fuel : Nat)
    (h8 : 8 ≤ F.length) (hle : F.length ≤ tcpAduMaxSize)
    (hp : u16 F 2 = tcpProtocolIdentifier)
    (hdecl : u16 F 4 + 6 = F.length)
    (hs : nodes (F.getD 6 0) = none) :
    frameHandler nodes table F = (none, []) ∧
    serveStream nodes table (fuel+1) (F ++ rest) = serveStream nodes table fuel rest := by
  have hfh : frameHandler nodes table F = (none, []) := by
    simp only [frameHandler]
    rw [if_neg (by omega), hs]
  refine ⟨hfh, ?_⟩
  have hu2 : u16 (F ++ rest) 2 = u16 F 2 := u16_append F rest 2 (by omega)
  have hu4 : u16 (F ++ rest) 4 = u16 F 4 := u16_append F rest 4 (by omega)
  simp only [serveStream]
  rw [if_neg (by simp only [List.length_append, tcpHeaderMbapSize]; omega)]
  rw [if_neg (by rw [hu2, hp]; simp)]
  have hl : u16 (F ++ rest) 4 + tcpHeaderMbapSize - 1 = F.length := by
    rw [hu4]; simp only [tcpHeaderMbapSize]; omega
  rw [hl]
  rw [if_neg (by simp only [tcpHeaderMbapSize]; omega)]
  rw [if_neg (by simp only [tcpAduMaxSize] at hle ⊢; omega)]
  rw [if_neg (by simp only [List.length_append]; omega)]
  rw [List.take_left, List.drop_left, hfh]

/-- C5 witness: a frame for unknown slave 9 yields no reply and no backend
call, and a following frame for registered slave 1 is still processed. -/
theorem C5_unknown_slave_dropped_witness :
    frameHandler (fun i => if i = 1 then some failWriteReg else none) defaultTable
      [0, 0, 0, 0, 0, 6, 9, 3, 0, 0, 0, 1] = (none, []) ∧
    serveStream (fun i => if i = 1 then some failWriteReg else none) defaultTable 2
      ([0, 0, 0, 0, 0, 6, 9, 3, 0, 0, 0, 1] ++ [0, 0, 0, 0, 0, 6, 1, 3, 0, 0, 0, 1]) =
      serveStream (fun i => if i = 1 then some failWriteReg else none) defaultTable 1
        [0, 0, 0, 0, 0, 6, 1, 3, 0, 0, 0, 1] :=
  C5_unknown_slave_dropped (fun i => if i = 1 then some failWriteReg else none) defaultTable
    [0, 0, 0, 0, 0, 6, 9, 3, 0, 0, 0, 1] [0, 0, 0, 0, 0, 6, 1, 3, 0, 0, 0, 1] 1
    (by decide) (by decide) (by decide) (by decide) rfl

/-- Modelled from the spec: the backend read contract — packed-bit reads
return ceil(qty/8) bytes and word reads return 2·qty bytes on success. -/
structure OracleValid (reg : NodeRegister) : Prop where
  coils : ∀ a q v, reg (RegEvent.readCoils a q) = .ok v → v.length = (q + 7) / 8
  discretes : ∀ a q v, reg (RegEvent.readDiscretes a q) = .ok v → v.length = (q + 7) / 8
  holdings : ∀ a q v, reg (RegEvent.readHoldings a q) = .ok v → v.length = 2 * q
  inputs : ∀ a q v, reg (RegEvent.readInputs a q) = .ok v → v.length = 2 * q

lemma readBits_rsp_cases (reg : NodeRegister) (data : Bytes) (b : Bool)
    (hov : OracleValid reg) :
    (readBits reg data b).rsp = none ∨
    ∃ v, (readBits reg data b).rsp = some v ∧ v.length ≤ 251 := by
  simp only [readBits, ReadBitsQuantityMin, ReadBitsQuantityMax]
  split_ifs with h1 h2 h3
  · left; rfl
  · left; rfl
  · cases hre : reg (RegEvent.readCoils (u16 data 0) (u16 data 2)) with
    | error e => left; rfl
    | ok value =>
      dsimp only
      right
      refine ⟨_, rfl, ?_⟩
      have hl := hov.coils _ _ _ hre
      simp only [List.length_cons]
      omega
  · cases hre : reg (RegEvent.readDiscretes (u16 data 0) (u16 data 2)) with
    | error e => left; rfl
    | ok value =>
      dsimp only
      right
      refine ⟨_, rfl, ?_⟩
      have hl := hov.discretes _ _ _ hre
      simp only [List.length_cons]
      omega

lemma readRegisters_rsp_cases (reg : NodeRegister) (data : Bytes) (b : Bool)
    (hov : OracleValid reg) :
    (readRegisters reg data b).rsp = none ∨
    ∃ v, (readRegisters reg data b).rsp = some v ∧ v.length ≤ 251 := by
  simp only [readRegisters, ReadRegQuantityMin, ReadRegQuantityMax]
  split_ifs with h1 h2 h3
  · left; rfl
  · left; rfl
  · cases hre : reg (RegEvent.readHoldings (u16 data 0) (u16 data 2)) with
    | error e => left; rfl
    | ok value =>
      dsimp only
      right
      refine ⟨_, rfl, ?_⟩
      have hl := hov.holdings _ _ _ hre
      simp only [List.length_cons]
      omega
  · cases hre : reg (RegEvent.readInputs (u16 data 0) (u16 data 2)) with
    | error e => left; rfl
    | ok value =>
      dsimp only
      right
      refine ⟨_, rfl, ?_⟩
      have hl := hov.inputs _ _ _ hre
      simp only [List.length_cons]
      omega

lemma funcReadWriteMulti_rsp_cases (reg : NodeRegister) (data : Bytes)
    (hov : OracleValid reg) :
    (funcReadWriteMultiHoldingRegisters reg data).rsp = none ∨
    ∃ v, (funcReadWriteMultiHoldingRegisters reg data).rsp = some v ∧ v.length ≤ 251 := by
  simp only [funcReadWriteMultiHoldingRegisters, ReadWriteOnReadRegQuantityMin,
    ReadWriteOnReadRegQuantityMax, ReadWriteOnWriteRegQuantityMin,
    ReadWriteOnWriteRegQuantityMax]
  split_ifs with h1 h2
  · left; rfl
  · left; rfl
  · cases hw : reg (RegEvent.writeHoldings (u16 data 4) (u16 data 6) (data.drop 9)) with
    | error e => left; rfl
    | ok w =>
      dsimp only
      cases hr : reg (RegEvent.readHoldings (u16 data 0) (u16 data 2)) with
      | error e => left; rfl
      | ok value =>
        dsimp only
        right
        refine ⟨_, rfl, ?_⟩
        have hl := hov.holdings _ _ _ hr
        simp only [List.length_cons]
        omega

lemma funcWriteSingleCoil_rsp_cases (reg : NodeRegister) (data : Bytes) :
    (funcWriteSingleCoil reg data).rsp = none ∨
    (funcWriteSingleCoil reg data).rsp = some data := by
  simp only [funcWriteSingleCoil]
  split_ifs <;> try simp
  all_goals split <;> simp

lemma funcWriteMultiCoils_rsp_cases (reg : NodeRegister) (data : Bytes) :
    (funcWriteMultiCoils reg data).rsp = none ∨
    (funcWriteMultiCoils reg data).rsp = some (data.take 4) := by
  simp only [funcWriteMultiCoils]
  split_ifs <;> try simp
  all_goals split <;> simp

lemma funcWriteSingleRegister_rsp_cases (reg : NodeRegister) (data : Bytes) :
    (funcWriteSingleRegister reg data).rsp = none ∨
    (funcWriteSingleRegister reg data).rsp = some data := by
  simp only [funcWriteSingleRegister]
  split_ifs <;> try simp
  all_goals split <;> simp

lemma funcWriteMultiHoldingRegisters_rsp_cases (reg : NodeRegister) (data : Bytes) :
    (funcWriteMultiHoldingRegisters reg data).rsp = none ∨
    (funcWriteMultiHoldingRegisters reg data).rsp = some (data.take 2 ++ putU16 (u16 data 2)) := by
  simp only [funcWriteMultiHoldingRegisters]
  split_ifs <;> try simp
  all_goals split <;> simp

lemma funcMaskWriteRegisters_rsp_cases (reg : NodeRegister) (data : Bytes) :
    (funcMaskWriteRegisters reg data).rsp = none ∨
    (funcMaskWriteRegisters reg data).rsp = some data := by
  simp only [funcMaskWriteRegisters]
  split_ifs <;> try simp
  all_goals split <;> simp

set_option maxHeartbeats 2000000 in
lemma defaultTable_rsp_bound (fc : Nat) (handle : FunctionHandler)
    (hfc : defaultTable fc = some handle) (reg : NodeRegister) (hov : OracleValid reg)
    (data : Bytes) (hd : data.length ≤ 252) :
    (handle reg data).rsp = none ∨
    ∃ v, (handle reg data).rsp = some v ∧ v.length ≤ 252 := by
  unfold defaultTable at hfc
  split_ifs at hfc
  all_goals injection hfc with hfc
  all_goals subst hfc
  · rcases readBits_rsp_cases reg data false hov with h | ⟨v, hv, hb⟩
    · exact Or.inl h
    · exact Or.inr ⟨v, hv, by omega⟩
  · rcases readBits_rsp_cases reg data true hov with h | ⟨v, hv, hb⟩
    · exact Or.inl h
    · exact Or.inr ⟨v, hv, by omega⟩
  · rcases funcWriteSingleCoil_rsp_cases reg data with h | h
    · exact Or.inl h
    · exact Or.inr ⟨data, h, hd⟩
  · rcases funcWriteMultiCoils_rsp_cases reg data with h | h
    · exact Or.inl h
    · exact Or.inr ⟨data.take 4, h, by simp only [List.length_take]; omega⟩
  · rcases readRegisters_rsp_cases reg data false hov with h | ⟨v, hv, hb⟩
    · exact Or.inl h
    · exact Or.inr ⟨v, hv, by omega⟩
  · rcases readRegisters_rsp_cases reg data true hov with h | ⟨v, hv, hb⟩
    · exact Or.inl h
    · exact Or.inr ⟨v, hv, by omega⟩
  · rcases funcWriteSingleRegister_rsp_cases reg data with h | h
    · exact Or.inl h
    · exact Or.inr ⟨data, h, hd⟩
  · rcases funcWriteMultiHoldingRegisters_rsp_cases reg data with h | h
    · exact Or.inl h
    · exact Or.inr ⟨_, h, by simp only [List.length_append, List.length_take, putU16,
        List.length_cons, List.length_nil]; omega⟩
  · rcases funcReadWriteMulti_rsp_cases reg data hov with h | ⟨v, hv, hb⟩
    · exact Or.inl h
    · exact Or.inr ⟨v, hv, by omega⟩
  · rcases funcMaskWriteRegisters_rsp_cases reg data with h | h
    · exact Or.inl h
    · exact Or.inr ⟨data, h, hd⟩

lemma getD_lt_256 (l : Bytes) (hb : ∀ x ∈ l, x < 256) (i : Nat) : l.getD i 0 < 256 := by
  by_cases h : i < l.length
  · rw [List.getD_eq_getElem l 0 h]
    exact hb _ (List.getElem_mem h)
  · rw [List.getD_eq_default l 0 (by omega)]
    omega

lemma frameHandler_default_shape (nodes : Nat → Option NodeRegister) (adu : Bytes)
    (hle : adu.length ≤ tcpAduMaxSize)
    (hov : ∀ id node, nodes id = some node → OracleValid node) :
    ∀ rsp, (frameHandler nodes defaultTable adu).1 = some rsp →
    ∃ f pdu, rsp = buildResponse (u16 adu 0) (u16 adu 2) (adu.getD 6 0) f pdu ∧
      pdu.length ≤ 252 := by
  intro rsp hr
  simp only [frameHandler] at hr
  by_cases h8 : adu.length < 8
  · rw [if_pos h8] at hr; simp at hr
  · rw [if_neg h8] at hr
    cases hn : nodes (adu.getD 6 0) with
    | none => rw [hn] at hr; simp at hr
    | some node =>
      rw [hn] at hr
      dsimp only at hr
      cases ht : defaultTable (adu.getD 7 0) with
      | none =>
        rw [ht] at hr
        dsimp only at hr
        exact ⟨_, _, (Option.some.inj hr).symm, by simp⟩
      | some handle =>
        rw [ht] at hr
        dsimp only at hr
        cases he : (handle node (adu.drop 8)).err with
        | some e =>
          rw [he] at hr
          dsimp only at hr
          exact ⟨_, _, (Option.some.inj hr).symm, by simp⟩
        | none =>
          rw [he] at hr
          dsimp only at hr
          have hd : (adu.drop 8).length ≤ 252 := by
            simp only [List.length_drop]
            simp only [tcpAduMaxSize] at hle
            omega
          rcases defaultTable_rsp_bound (adu.getD 7 0) handle ht node (hov _ _ hn)
            (adu.drop 8) hd with h | ⟨v, hv, hvb⟩
          · rw [h] at hr
            exact ⟨_, [], (Option.some.inj hr).symm, by simp⟩
          · rw [hv] at hr
            exact ⟨_, v, (Option.some.inj hr).symm, hvb⟩

/-- C4: every emitted reply echoes the transaction id, protocol id
and slave id of the request, and its MBAP length field equals 2 plus the length of the
response PDU data (the bytes after the function code). -/
theorem C4_response_mirrors_request (nodes : Nat → Option NodeRegister) (adu : Bytes)
    (hle : adu.length ≤ tcpAduMaxSize)
    (hb : ∀ x ∈ adu, x < 256)
    (hov : ∀ id node, nodes id = some node → OracleValid node) :
    ∀ rsp, (frameHandler nodes defaultTable adu).1 = some rsp →
      u16 rsp 0 = u16 adu 0 ∧ u16 rsp 2 = u16 adu 2 ∧
      rsp.getD 6 0 = adu.getD 6 0 ∧ u16 rsp 4 = 2 + (rsp.drop 8).length := by
  intro rsp hr
  obtain ⟨f, pdu, rfl, hpl⟩ := frameHandler_default_shape nodes adu hle hov rsp hr
  have h0 := getD_lt_256 adu hb 0
  have h1 := getD_lt_256 adu hb (0 + 1)
  have h2 := getD_lt_256 adu hb 2
  have h3 := getD_lt_256 adu hb (2 + 1)
  refine ⟨?_, ?_, getD_buildResponse_six _ _ _ _ _, ?_⟩
  · rw [u16_buildResponse_zero]
    unfold u16
    omega
  · rw [u16_buildResponse_two]
    unfold u16
    omega
  · rw [u16_buildResponse_four, drop_buildResponse]
    omega

def lengthFor : RegEvent → Nat
  | RegEvent.readCoils _ q => (q + 7) / 8
  | RegEvent.readDiscretes _ q => (q + 7) / 8
  | RegEvent.readHoldings _ q => 2 * q
  | RegEvent.readInputs _ q => 2 * q
  | _ => 0

def okReg : NodeRegister := fun ev => .ok (List.replicate (lengthFor ev) 0)

def nodesOK : Nat → Option NodeRegister := fun i => if i = 1 then some okReg else none

lemma okReg_valid : OracleValid okReg := by
  constructor <;> intro a q v h <;> simp only [okReg, Except.ok.injEq] at h <;>
    rw [← h] <;> simp [lengthFor]

lemma nodesOK_valid : ∀ id node, nodesOK id = some node → OracleValid node := by
  intro id node h
  simp only [nodesOK] at h
  split_ifs at h
  injection h with h
  rw [← h]
  exact okReg_valid

/-- C4 witness: the header-mirroring property at a concrete one-word
Read Holding Registers exchange. -/
theorem C4_response_mirrors_request_witness :
    u16 [0, 0, 0, 0, 0, 5, 1, 3, 2, 0, 0] 0 = u16 [0, 0, 0, 0, 0, 6, 1, 3, 0, 0, 0, 1] 0 ∧
    u16 [0, 0, 0, 0, 0, 5, 1, 3, 2, 0, 0] 2 = u16 [0, 0, 0, 0, 0, 6, 1, 3, 0, 0, 0, 1] 2 ∧
    List.getD [0, 0, 0, 0, 0, 5, 1, 3, 2, 0, 0] 6 0 =
      List.getD [0, 0, 0, 0, 0, 6, 1, 3, 0, 0, 0, 1] 6 0 ∧
    u16 [0, 0, 0, 0, 0, 5, 1, 3, 2, 0, 0] 4 =
      2 + (List.drop 8 [0, 0, 0, 0, 0, 5, 1, 3, 2, 0, 0]).length :=
  C4_response_mirrors_request nodesOK [0, 0, 0, 0, 0, 6, 1, 3, 0, 0, 0, 1] (by decide) (by decide)
    nodesOK_valid [0, 0, 0, 0, 0, 5, 1, 3, 2, 0, 0] rfl
